import Mathlib

/-!
Shallow embedding of the airport-api-service booking backend
(`airport/models.py`, `airport/serializers.py`, `airport/views.py`).

Conventions of the embedding:
* Database rows are Lean structures; the persistent store is an explicit
  `DB` state threaded through the operations.
* Python `datetime` values are modelled as integers in a fixed monotone
  encoding (`y*10^8 + m*10^6 + d*10^4 + time-of-day`); only their order
  matters to the code under verification.
* Fallible code returns `Except AppError _`; a Django `transaction.atomic`
  block is modelled by the `Except` result: an error carries no new state,
  which is exactly the rollback semantics the block provides.
* Python strings are processed as `List Char` (via `String.toList`), so
  that every definition evaluates by kernel reduction.
-/

namespace AirportApi

/-- Decidable equality of `Except` results, so that concrete runs of the
operations can be checked by `decide`. -/
instance {ε α : Type} [DecidableEq ε] [DecidableEq α] :
    DecidableEq (Except ε α) := fun x y =>
  match x, y with
  | .ok a, .ok b =>
    if h : a = b then .isTrue (congrArg Except.ok h)
    else .isFalse (fun hc => h (Except.ok.inj hc))
  | .error a, .error b =>
    if h : a = b then .isTrue (congrArg Except.error h)
    else .isFalse (fun hc => h (Except.error.inj hc))
  | .ok _, .error _ => .isFalse (fun hc => Except.noConfusion hc)
  | .error _, .ok _ => .isFalse (fun hc => Except.noConfusion hc)

/-! ### Python string primitives used by the views -/

/-- Model of Python `str.split(sep)` for a one-character separator:
`"".split(",") = [""]`, and empty chunks between separators are kept. -/
def splitOnChar (sep : Char) : List Char → List (List Char)
  | [] => [[]]
  | c :: cs =>
    let r := splitOnChar sep cs
    if c = sep then [] :: r
    else
      match r with
      | [] => [[c]]
      | g :: gs => (c :: g) :: gs

/-- Strip leading and trailing whitespace, as Python `int(...)` does to its
argument before parsing. -/
def stripWs (cs : List Char) : List Char :=
  ((cs.dropWhile Char.isWhitespace).reverse.dropWhile Char.isWhitespace).reverse

/-- Digits-only string to a natural number; `none` on the empty string or any
non-digit character. -/
def digitsToNat (cs : List Char) : Option Nat :=
  if cs.isEmpty then none
  else if cs.all Char.isDigit then
    some (cs.foldl (fun a c => a * 10 + (c.toNat - 48)) 0)
  else none

/-- Model of the Python builtin `int(s)`: optional surrounding whitespace, an
optional sign, then at least one digit; raises `ValueError` (here: `none`)
otherwise. (Digit-group underscores are not modelled.) -/
def pyInt (cs : List Char) : Option Int :=
  match stripWs cs with
  | '-' :: rest => (digitsToNat rest).map (fun n => -(n : Int))
  | '+' :: rest => (digitsToNat rest).map (fun n => (n : Int))
  | t => (digitsToNat t).map (fun n => (n : Int))

/-- ASCII lower-casing, used to model the case-insensitive `icontains`
lookups of the flight filters. -/
def lowerChar (c : Char) : Char :=
  if 65 ≤ c.toNat ∧ c.toNat ≤ 90 then Char.ofNat (c.toNat + 32) else c

/-- Predicate `needleHeads needle hay`: `needle` is an initial segment of `hay`. -/
def needleHeads : List Char → List Char → Bool
  | [], _ => true
  | _ :: _, [] => false
  | a :: as, b :: bs => a == b && needleHeads as bs

/-- Predicate `needleIn needle hay`: `needle` occurs contiguously inside `hay`. -/
def needleIn (needle : List Char) : List Char → Bool
  | [] => needle.isEmpty
  | b :: bs => needleHeads needle (b :: bs) || needleIn needle bs

/-- Model of the ORM lookup `field__icontains=value`. -/
def icontains (field value : String) : Bool :=
  needleIn (value.toList.map lowerChar) (field.toList.map lowerChar)

/-! ### Dates (`datetime.strptime(s, "%Y-%m-%d")`) -/

/-- Gregorian leap-year test, as `datetime.date` applies it. -/
def isLeap (y : Nat) : Bool :=
  (y % 4 = 0 && y % 100 ≠ 0) || y % 400 = 0

/-- Days in a month, as `datetime.date` validates the day component. -/
def daysInMonth (y m : Nat) : Nat :=
  if m = 2 then (if isLeap y then 29 else 28)
  else if m = 4 ∨ m = 6 ∨ m = 9 ∨ m = 11 then 30
  else 31

/-- The fixed integer encoding of the midnight datetime of a calendar date,
compatible with the encoding of the stored `departure_time`/`arrival_time`
fields (Django compares a date bound against the datetime column). -/
def dateCode (y m d : Nat) : Int :=
  (y : Int) * 100000000 + (m : Int) * 1000000 + (d : Int) * 10000

/-- Model of `datetime.strptime(s, "%Y-%m-%d").date()`: exactly four year
digits, one or two month digits in `1..12`, one or two day digits valid for
the month, nothing left over; `none` models the raised `ValueError`. -/
def pyStrptimeDate (s : String) : Option Int :=
  match splitOnChar '-' s.toList with
  | [ys, ms, ds] =>
    if ys.length = 4 ∧ (ms.length = 1 ∨ ms.length = 2) ∧
        (ds.length = 1 ∨ ds.length = 2) then
      match digitsToNat ys, digitsToNat ms, digitsToNat ds with
      | some y, some m, some d =>
        if 1 ≤ y ∧ 1 ≤ m ∧ m ≤ 12 ∧ 1 ≤ d ∧ d ≤ daysInMonth y m then
          some (dateCode y m d)
        else none
      | _, _, _ => none
    else none
  | _ => none

/-! ### Data model (`airport/models.py`) -/

/-- Model `Airport(models.Model)`: `name` (unique), `closest_big_city`. -/
structure Airport where
  name : String
  closest_big_city : String
deriving DecidableEq

/-- Model `Route(models.Model)`: source/destination airports and a distance.
The foreign keys are embedded as values; routes are never mutated by the
operations under verification. -/
structure Route where
  source : Airport
  destination : Airport
  distance : Int
deriving DecidableEq

/-- Model `Airplane(models.Model)`: `rows` and `seats_in_row` are plain
`IntegerField`s (any integer); the airplane-type link and image are not
referenced by any verified operation and are omitted. -/
structure Airplane where
  id : Nat
  name : String
  rows : Int
  seats_in_row : Int
deriving DecidableEq

/-- Property `Airplane.capacity`. -/
def Airplane.capacity (a : Airplane) : Int :=
  a.rows * a.seats_in_row

/-- Model `Flight(models.Model)`: route and airplane embedded, the two datetimes in
the integer encoding, and the many-to-many crew as the list of crew-member
primary keys. -/
structure Flight where
  id : Nat
  route : Route
  airplane : Airplane
  departure_time : Int
  arrival_time : Int
  crew : List Int
deriving DecidableEq

/-- Model `Order(models.Model)`: the owning user's primary key. The
`created_at` timestamp is set once at creation and read by no verified
operation, so it is omitted. -/
structure Order where
  id : Nat
  userId : Nat
deriving DecidableEq

/-- Model `Ticket(models.Model)`: seat coordinates plus the two foreign keys,
kept as primary keys into the explicit store. -/
structure Ticket where
  row : Int
  seat : Int
  flightId : Nat
  orderId : Nat
deriving DecidableEq

/-- A ticket entry of a `POST /orders` payload: `{row, seat, flight}`. -/
structure TicketSpec where
  row : Int
  seat : Int
  flightId : Nat
deriving DecidableEq

/-- The persistent store visible to the verified operations. -/
structure DB where
  flights : List Flight
  orders : List Order
  tickets : List Ticket
  nextOrderId : Nat
deriving DecidableEq

/-- The error taxonomy the code can surface, tagged by the exception class
actually raised, together with the HTTP class the surrounding framework
assigns to each (a `rest_framework` `ValidationError` is handled as 400, an
`Http404` as 404; a Django-core `ValidationError` or a builtin `ValueError`
raised inside a view/serializer is unhandled and surfaces as a 500). -/
inductive AppError where
  | validationError (detail : String) : AppError
  | djangoValidationError (detail : String) : AppError
  | valueError (detail : String) : AppError
  | http404 : AppError
deriving DecidableEq

/-- The HTTP status class of each raised exception under the framework's
standard exception handling (see `AppError`). -/
def AppError.statusClass : AppError → Nat
  | .validationError _ => 400
  | .djangoValidationError _ => 500
  | .valueError _ => 500
  | .http404 => 404

/-- Look a flight up by primary key. -/
def flightOf (flights : List Flight) (fid : Nat) : Option Flight :=
  flights.find? (fun fl => fl.id == fid)

/-! ### Ticket validation (`Ticket.validate_ticket`, models.py 201-216) -/

/-- Validator `Ticket.validate_ticket(row, seat, airplane, error_to_raise)`: the source
iterates over `[("row", row, "rows"), ("seat", seat, "seats_in_row")]` and
raises `error_to_raise({attr_name: ...})` for the first attribute with
`not (0 < value < bound)`; the caller chooses the exception class, modelled
by the `error_to_raise` constructor argument carrying the offending field. -/
def Ticket.validate_ticket {ε : Type} (row seat : Int) (airplane : Airplane)
    (error_to_raise : String → ε) : Except ε Unit :=
  if ¬ (0 < row ∧ row < airplane.rows) then .error (error_to_raise "row")
  else if ¬ (0 < seat ∧ seat < airplane.seats_in_row) then
    .error (error_to_raise "seat")
  else .ok ()

/-- Hook `Ticket.clean` (models.py 218-224): validates the ticket against its
flight's airplane with the Django-core `ValidationError` class. -/
def Ticket.clean (flights : List Flight) (t : Ticket) : Except AppError Unit :=
  match flightOf flights t.flightId with
  | none => .error (.djangoValidationError "flight")
  | some fl =>
    Ticket.validate_ticket t.row t.seat fl.airplane AppError.djangoValidationError

/-- Validator `TicketSerializer.validate` (serializers.py 177-185): the same check with
the DRF `ValidationError` class; `attrs["flight"]` is already the resolved
flight object. -/
def TicketSerializer.validate (fl : Flight) (row seat : Int) :
    Except AppError Unit :=
  Ticket.validate_ticket row seat fl.airplane AppError.validationError

/-- Field validation of one nested ticket payload: the
`PrimaryKeyRelatedField` resolves `flight` (a missing id is a DRF
`ValidationError`), then `TicketSerializer.validate` runs. -/
def TicketSerializer.runValidation (flights : List Flight) (s : TicketSpec) :
    Except AppError Unit :=
  match flightOf flights s.flightId with
  | none => .error (.validationError "flight")
  | some fl => TicketSerializer.validate fl s.row s.seat

/-- The `Ticket` row built from one payload entry and the owning order
(`Ticket.objects.create(order=order, **ticket_data)`). -/
def mkTicket (oid : Nat) (s : TicketSpec) : Ticket :=
  { row := s.row, seat := s.seat, flightId := s.flightId, orderId := oid }

/-- The `unique_together = ["row", "seat", "flight"]` key of a ticket row. -/
def tkey (t : Ticket) : Int × Int × Nat :=
  (t.row, t.seat, t.flightId)

/-- The uniqueness key of a requested ticket. -/
def skey (s : TicketSpec) : Int × Int × Nat :=
  (s.row, s.seat, s.flightId)

/-- Check `Model.validate_unique` for `Ticket`: the `unique_together` constraint
checks the store for another row with the same `(row, seat, flight)`. -/
def Ticket.validate_unique (db : DB) (t : Ticket) : Except AppError Unit :=
  if db.tickets.any (fun t2 =>
      t2.row == t.row && t2.seat == t.seat && t2.flightId == t.flightId) then
    .error (.djangoValidationError "unique")
  else .ok ()

/-- Hook `Ticket.full_clean` as invoked by the overridden `Ticket.save`
(models.py 226-236): `clean` (seat-range check) then `validate_unique`. -/
def Ticket.full_clean (db : DB) (t : Ticket) : Except AppError Unit := do
  Ticket.clean db.flights t
  Ticket.validate_unique db t

/-- Override `Ticket.save`: `full_clean` then the insert. -/
def Ticket.save (db : DB) (t : Ticket) : Except AppError DB := do
  Ticket.full_clean db t
  .ok { db with tickets := db.tickets ++ [t] }

/-! ### Order creation (`OrderSerializer`, serializers.py 227-240) -/

/-- Serializer validation of `POST /orders`: the nested `tickets` field has
`allow_empty=False`, and every entry runs `TicketSerializer` validation. -/
def OrderSerializer.isValid (db : DB) (specs : List TicketSpec) :
    Except AppError Unit := do
  if specs.isEmpty then .error (.validationError "tickets")
  else specs.forM (TicketSerializer.runValidation db.flights)

/-- The ticket-creation loop of `OrderSerializer.create`: each
`Ticket.objects.create` re-runs `full_clean` against the store as grown so
far inside the transaction. -/
def createTickets (oid : Nat) (specs : List TicketSpec) (db : DB) :
    Except AppError DB :=
  specs.foldlM (fun acc s => Ticket.save acc (mkTicket oid s)) db

/-- Method `OrderSerializer.create` inside `transaction.atomic()`: create the order
row, then each ticket; an error result models the rollback (no new state). -/
def OrderSerializer.create (db : DB) (userId : Nat)
    (specs : List TicketSpec) : Except AppError DB :=
  let order : Order := { id := db.nextOrderId, userId := userId }
  createTickets order.id specs
    { db with orders := db.orders ++ [order], nextOrderId := db.nextOrderId + 1 }

/-- The whole `POST /orders` write path: serializer validation
(`is_valid`) followed by `OrderSerializer.create` under the transaction. -/
def createOrder (db : DB) (userId : Nat) (specs : List TicketSpec) :
    Except AppError DB := do
  OrderSerializer.isValid db specs
  OrderSerializer.create db userId specs

/-! ### Order list / retrieve / destroy (`OrderViewSet`, views.py 316-349) -/

/-- Method `OrderViewSet.get_queryset`: the base queryset filtered by
`user=self.request.user` (the `select_related`/`prefetch_related` hints do
not change the row set). -/
def OrderViewSet.getQueryset (db : DB) (userId : Nat) : List Order :=
  db.orders.filter (fun o => o.userId == userId)

/-- Endpoint `GET /orders/{id}`: `get_object` looks the pk up inside the
user-filtered queryset and raises `Http404` when it is absent. -/
def orderRetrieve (db : DB) (userId oid : Nat) : Except AppError Order :=
  match (OrderViewSet.getQueryset db userId).find? (fun o => o.id == oid) with
  | some o => .ok o
  | none => .error .http404

/-- Endpoint `DELETE /orders/{id}`: `get_object` against the user-filtered queryset,
then the delete cascades to the order's tickets
(`Ticket.order` has `on_delete=CASCADE`). -/
def orderDestroy (db : DB) (userId oid : Nat) : Except AppError DB :=
  match (OrderViewSet.getQueryset db userId).find? (fun o => o.id == oid) with
  | some o =>
    .ok { db with
          orders := db.orders.filter (fun x => !(x.id == o.id)),
          tickets := db.tickets.filter (fun t => !(t.orderId == o.id)) }
  | none => .error .http404

/-! ### Flight validation (`Flight.clean`/`save`, `FlightSerializer`) -/

/-- Hook `Flight.clean` (models.py 160-163). -/
def Flight.clean (f : Flight) : Except AppError Unit :=
  if f.departure_time ≥ f.arrival_time then
    .error (.djangoValidationError "time")
  else .ok ()

/-- Override `Flight.save` (models.py 165-175): `full_clean` runs on every save,
creates and updates alike, before the row is persisted. -/
def Flight.save (f : Flight) : Except AppError Flight := do
  Flight.clean f
  .ok f

/-- Validator `FlightSerializer.validate` (serializers.py 139-144): the same timing
check at the API layer, with the DRF `ValidationError` class. -/
def FlightSerializer.validate (departure_time arrival_time : Int) :
    Except AppError Unit :=
  if departure_time ≥ arrival_time then .error (.validationError "time")
  else .ok ()

/-- An update of a stored flight's time window followed by `Flight.save`. -/
def flightUpdate (f : Flight) (dep arr : Int) : Except AppError Flight :=
  Flight.save { f with departure_time := dep, arrival_time := arr }

/-! ### Airplane creation (`AirplaneSerializer`, serializers.py 62-65) -/

/-- A `POST /airplanes` payload. -/
structure AirplanePayload where
  name : String
  rows : Int
  seats_in_row : Int
  airplane_type : Nat
deriving DecidableEq

/-- Airplane creation: `AirplaneSerializer` declares no validator and
`Airplane` overrides nothing, so beyond the `airplane_type` foreign-key
lookup every integer payload is persisted as sent. -/
def airplaneCreate (typeIds : List Nat) (newId : Nat) (p : AirplanePayload) :
    Except AppError Airplane :=
  if typeIds.contains p.airplane_type then
    .ok { id := newId, name := p.name, rows := p.rows,
          seats_in_row := p.seats_in_row }
  else .error (.validationError "airplane_type")

/-! ### Flight filtering (`FlightViewSet`, views.py 162-308) -/

/-- The optional query parameters of `GET /flights`
(`self.request.query_params.get(...)`, `none` when absent). -/
structure QueryParams where
  source_airport : Option String := none
  destination_airport : Option String := none
  source_city : Option String := none
  destination_city : Option String := none
  airplane : Option String := none
  crew : Option String := none
  date_departure : Option String := none
  date_arrival : Option String := none
deriving DecidableEq

/-- Helper `FlightViewSet._params_to_ints` (views.py 178-181):
`[int(str_id) for str_id in qs.split(",")]`; the first unparsable chunk
raises a builtin `ValueError`. -/
def FlightViewSet.paramsToInts (qs : String) : Except AppError (List Int) :=
  (splitOnChar ',' qs.toList).mapM (fun chunk =>
    match pyInt chunk with
    | some n => .ok n
    | none => .error (.valueError (String.mk chunk)))

/-- Apply one `icontains` filter guarded by Python truthiness: a missing or
empty parameter leaves the queryset unchanged. -/
def applyContainsFilter (q : List Flight) (param : Option String)
    (field : Flight → String) : List Flight :=
  match param with
  | none => q
  | some v => if v = "" then q else q.filter (fun f => icontains (field f) v)

/-- The filter pipeline of `FlightViewSet.get_queryset` (views.py 183-243)
up to the final `distinct().order_by(...)`. The crew filter is the ORM join
`crew__id__in`: in SQL it yields one row per matching crew member, so a
flight is repeated when several of its crew ids match. The two date filters
parse with `datetime.strptime`, whose `ValueError` escapes uncaught. -/
def FlightViewSet.rawQueryset (flights : List Flight) (p : QueryParams) :
    Except AppError (List Flight) := do
  let q := flights
  let q := applyContainsFilter q p.source_airport (fun f => f.route.source.name)
  let q := applyContainsFilter q p.destination_airport
    (fun f => f.route.destination.name)
  let q := applyContainsFilter q p.source_city
    (fun f => f.route.source.closest_big_city)
  let q := applyContainsFilter q p.destination_city
    (fun f => f.route.destination.closest_big_city)
  let q := applyContainsFilter q p.airplane (fun f => f.airplane.name)
  let q ← match p.crew with
    | none => pure q
    | some c =>
      if c = "" then pure q
      else do
        let crew_ids ← FlightViewSet.paramsToInts c
        pure (q.flatMap (fun f =>
          (f.crew.filter (fun cid => crew_ids.contains cid)).map (fun _ => f)))
  let q ← match p.date_departure with
    | none => pure q
    | some ds =>
      if ds = "" then pure q
      else
        match pyStrptimeDate ds with
        | none => .error (.valueError ds)
        | some bound => pure (q.filter (fun f => bound ≤ f.departure_time))
  let q ← match p.date_arrival with
    | none => pure q
    | some ds =>
      if ds = "" then pure q
      else
        match pyStrptimeDate ds with
        | none => .error (.valueError ds)
        | some bound => pure (q.filter (fun f => bound ≤ f.arrival_time))
  pure q

/-- The `order_by("departure_time")` relation. -/
def flightLe (a b : Flight) : Prop :=
  a.departure_time ≤ b.departure_time

instance : DecidableRel flightLe := fun a b =>
  inferInstanceAs (Decidable (a.departure_time ≤ b.departure_time))

instance : IsTotal Flight flightLe :=
  ⟨fun a b => Int.le_total a.departure_time b.departure_time⟩

instance : IsTrans Flight flightLe :=
  ⟨fun _ _ _ h1 h2 => le_trans h1 h2⟩

/-- Method `FlightViewSet.get_queryset`: the filter pipeline followed by
`queryset.distinct().order_by("departure_time")` (views.py 244). -/
def FlightViewSet.getQueryset (flights : List Flight) (p : QueryParams) :
    Except AppError (List Flight) :=
  (FlightViewSet.rawQueryset flights p).map
    (fun q => q.dedup.insertionSort flightLe)

/-- A `GET /flights` query with only the `crew` filter set. -/
def crewOnlyParams (c : String) : QueryParams :=
  { crew := some c }

/-! ### Derived flight quantities -/

/-- Count `self.tickets.count()` for a flight id. -/
def ticketsOn (db : DB) (fid : Nat) : Nat :=
  (db.tickets.filter (fun t => t.flightId == fid)).length

/-- Property `Flight.tickets_available` (models.py 156-158). -/
def tickets_available (db : DB) (f : Flight) : Int :=
  f.airplane.capacity - (ticketsOn db f.id : Int)

/-! ### Reachable states of the order/ticket subsystem -/

/-- The seat-range predicate `0 < row < rows and 0 < seat < seats_in_row`. -/
def InRange (row seat : Int) (a : Airplane) : Prop :=
  0 < row ∧ row < a.rows ∧ 0 < seat ∧ seat < a.seats_in_row

/-- A requested ticket that names an existing flight and passes the seat
validator against that flight's airplane. -/
def ValidSpec (flights : List Flight) (s : TicketSpec) : Prop :=
  ∃ fl, flightOf flights s.flightId = some fl ∧ InRange s.row s.seat fl.airplane

/-- One successful state transition of the order/ticket subsystem: a
successful `POST /orders` or a successful `DELETE /orders/{id}`. -/
inductive Step : DB → DB → Prop where
  | create (db db' : DB) (userId : Nat) (specs : List TicketSpec) :
      createOrder db userId specs = .ok db' → Step db db'
  | destroy (db db' : DB) (userId oid : Nat) :
      orderDestroy db userId oid = .ok db' → Step db db'

/-- States reachable from a deployment that starts with some flights (with
distinct primary keys) and no orders or tickets. -/
inductive Reachable : DB → Prop where
  | start (flights : List Flight) (n : Nat) :
      List.Pairwise (fun f1 f2 => f1.id ≠ f2.id) flights →
      Reachable { flights := flights, orders := [], tickets := [],
                  nextOrderId := n }
  | step (db db' : DB) : Reachable db → Step db db' → Reachable db'

/-- The inductive well-formedness invariant of the store. -/
def WF (db : DB) : Prop :=
  List.Pairwise (fun f1 f2 => f1.id ≠ f2.id) db.flights ∧
  (∀ o ∈ db.orders, o.id < db.nextOrderId) ∧
  List.Pairwise (fun o1 o2 => o1.id ≠ o2.id) db.orders ∧
  List.Pairwise (fun t1 t2 => tkey t1 ≠ tkey t2) db.tickets ∧
  (∀ t ∈ db.tickets, ∃ o ∈ db.orders, o.id = t.orderId) ∧
  (∀ o ∈ db.orders, ∃ t ∈ db.tickets, t.orderId = o.id) ∧
  (∀ t ∈ db.tickets, ∃ fl, flightOf db.flights t.flightId = some fl ∧
    InRange t.row t.seat fl.airplane)

/-! ### Concrete fixtures used to exercise the theorems -/

/-- A 3x3 airplane: bookable seats under the validator are `(1..2, 1..2)`. -/
def exAirplane : Airplane :=
  { id := 1, name := "PlaneA", rows := 3, seats_in_row := 3 }

/-- A single-row airplane: the validator can never accept a seat on it. -/
def exAirplaneSmall : Airplane :=
  { id := 2, name := "PlaneB", rows := 1, seats_in_row := 5 }

def exRoute : Route :=
  { source := { name := "Alpha", closest_big_city := "City1" },
    destination := { name := "Beta", closest_big_city := "City2" },
    distance := 100 }

def exFlight1 : Flight :=
  { id := 1, route := exRoute, airplane := exAirplane,
    departure_time := 100, arrival_time := 200, crew := [1, 2] }

def exFlight2 : Flight :=
  { id := 2, route := exRoute, airplane := exAirplane,
    departure_time := 50, arrival_time := 150, crew := [2] }

def exFlight3 : Flight :=
  { id := 3, route := exRoute, airplane := exAirplaneSmall,
    departure_time := 100, arrival_time := 200, crew := [] }

/-- The deployment state: three flights, no orders, no tickets. -/
def exDb0 : DB :=
  { flights := [exFlight1, exFlight2, exFlight3], orders := [],
    tickets := [], nextOrderId := 0 }

def exSpec1 : TicketSpec := { row := 1, seat := 1, flightId := 1 }

def exSpec2 : TicketSpec := { row := 1, seat := 2, flightId := 1 }

/-- The state after user 7 successfully orders the two seats of `exSpec1`
and `exSpec2` on flight 1. -/
def exDb1 : DB :=
  { flights := [exFlight1, exFlight2, exFlight3],
    orders := [{ id := 0, userId := 7 }],
    tickets := [{ row := 1, seat := 1, flightId := 1, orderId := 0 },
                { row := 1, seat := 2, flightId := 1, orderId := 0 }],
    nextOrderId := 1 }

def exPayload : AirplanePayload :=
  { name := "PlaneC", rows := 0, seats_in_row := -5, airplane_type := 1 }

/-- A ticket request aimed at the single-row airplane of `exFlight3`. -/
def exSpecBad : TicketSpec := { row := 1, seat := 1, flightId := 3 }

end AirportApi

namespace AirportApi

/-! ### Helper lemmas about the `Except` plumbing -/

theorem exceptBind_ok_iff {ε α β : Type} (e : Except ε α) (k : α → Except ε β)
    (b : β) : (e >>= k) = .ok b ↔ ∃ a, e = .ok a ∧ k a = .ok b := by
  cases e <;> simp [Bind.bind, Except.bind]

theorem exceptSeq_ok_iff {ε : Type} (e1 e2 : Except ε Unit) :
    (do e1; e2) = .ok () ↔ e1 = .ok () ∧ e2 = .ok () := by
  cases e1 with
  | error a => simp [Bind.bind, Except.bind]
  | ok u => cases u; simp [Bind.bind, Except.bind]

/-! ### The seat-range validator -/

/-- The validator `validate_ticket` succeeds exactly on the strict ranges, for either
exception class. -/
theorem validate_ticket_ok_iff {ε : Type} (mk : String → ε)
    (row seat : Int) (a : Airplane) :
    Ticket.validate_ticket row seat a mk = .ok () ↔ InRange row seat a := by
  unfold Ticket.validate_ticket InRange
  split_ifs with h1 h2
  · exact iff_of_true rfl (by tauto)
  · exact iff_of_false (by simp) (by tauto)
  · exact iff_of_false (by simp) (by tauto)

/-- Outside the strict ranges the validator raises. -/
theorem validate_ticket_error {ε : Type} (mk : String → ε)
    (row seat : Int) (a : Airplane) (h : ¬ InRange row seat a) :
    ∃ e, Ticket.validate_ticket row seat a mk = .error e := by
  cases hv : Ticket.validate_ticket row seat a mk with
  | error e => exact ⟨e, rfl⟩
  | ok u =>
    cases u
    exact absurd ((validate_ticket_ok_iff mk row seat a).mp hv) h

theorem ticket_clean_ok_iff (flights : List Flight) (t : Ticket) :
    Ticket.clean flights t = .ok () ↔
      ∃ fl, flightOf flights t.flightId = some fl ∧
        InRange t.row t.seat fl.airplane := by
  unfold Ticket.clean
  cases h : flightOf flights t.flightId with
  | none => simp [h]
  | some fl => simp [h, validate_ticket_ok_iff]

theorem validate_unique_ok_iff (db : DB) (t : Ticket) :
    Ticket.validate_unique db t = .ok () ↔
      ∀ t2 ∈ db.tickets, tkey t2 ≠ tkey t := by
  unfold Ticket.validate_unique
  have hiff : (db.tickets.any (fun t2 =>
      t2.row == t.row && t2.seat == t.seat && t2.flightId == t.flightId))
        = true ↔ ∃ t2 ∈ db.tickets, tkey t2 = tkey t := by
    simp [List.any_eq_true, tkey, Prod.ext_iff, and_assoc]
  split_ifs with h
  · refine iff_of_false (by simp) ?_
    obtain ⟨t2, ht2, hk⟩ := hiff.mp h
    intro hall
    exact hall t2 ht2 hk
  · refine iff_of_true rfl ?_
    intro t2 ht2 hk
    exact h (hiff.mpr ⟨t2, ht2, hk⟩)

theorem ticket_save_ok {db db' : DB} {t : Ticket}
    (h : Ticket.save db t = .ok db') :
    db' = { db with tickets := db.tickets ++ [t] } ∧
    (∃ fl, flightOf db.flights t.flightId = some fl ∧
      InRange t.row t.seat fl.airplane) ∧
    (∀ t2 ∈ db.tickets, tkey t2 ≠ tkey t) := by
  unfold Ticket.save at h
  rw [exceptBind_ok_iff] at h
  obtain ⟨u, hfc, hok⟩ := h
  cases u
  unfold Ticket.full_clean at hfc
  rw [exceptSeq_ok_iff] at hfc
  refine ⟨(Except.ok.inj hok).symm, ?_, ?_⟩
  · exact (ticket_clean_ok_iff db.flights t).mp hfc.1
  · exact (validate_unique_ok_iff db t).mp hfc.2

/-! ### Characterization of a successful order creation -/

/-- What a successful run of the ticket-creation loop guarantees: only the
ticket table grows, by exactly the requested tickets; every requested ticket
was valid and fresh against the pre-state; and the request itself contained
no repeated `(row, seat, flight)` key. -/
theorem createTickets_ok (oid : Nat) :
    ∀ (specs : List TicketSpec) (db db' : DB),
      createTickets oid specs db = .ok db' →
      db'.flights = db.flights ∧ db'.orders = db.orders ∧
      db'.nextOrderId = db.nextOrderId ∧
      db'.tickets = db.tickets ++ specs.map (mkTicket oid) ∧
      (∀ s ∈ specs, ValidSpec db.flights s ∧
        ∀ t ∈ db.tickets, tkey t ≠ skey s) ∧
      (specs.map skey).Nodup := by
  intro specs
  induction specs with
  | nil =>
    intro db db' h
    unfold createTickets at h
    rw [List.foldlM_nil] at h
    simp only [pure, Except.pure, Except.ok.injEq] at h
    subst h
    simp
  | cons s rest ih =>
    intro db db' h
    unfold createTickets at h
    rw [List.foldlM_cons] at h
    rw [exceptBind_ok_iff] at h
    obtain ⟨db1, hs, hrest⟩ := h
    obtain ⟨hdb1, hvalid, hfresh⟩ := ticket_save_ok hs
    have hrest' : createTickets oid rest db1 = .ok db' := hrest
    obtain ⟨hf, ho, hn, ht, hall, hnodup⟩ := ih db1 db' hrest'
    subst hdb1
    refine ⟨hf, ho, hn, ?_, ?_, ?_⟩
    · rw [ht]
      simp [List.append_assoc]
    · intro s' hs'
      rcases List.mem_cons.mp hs' with heq | hmem
      · subst heq
        exact ⟨hvalid, hfresh⟩
      · obtain ⟨hv', hfr'⟩ := hall s' hmem
        refine ⟨hv', ?_⟩
        intro t htm
        exact hfr' t (List.mem_append_left _ htm)
    · rw [List.map_cons, List.nodup_cons]
      refine ⟨?_, hnodup⟩
      intro hmem
      obtain ⟨s', hs', hkeq⟩ := List.mem_map.mp hmem
      obtain ⟨_, hfr'⟩ := hall s' hs'
      exact hfr' (mkTicket oid s)
        (List.mem_append_right _ (List.mem_singleton.mpr rfl)) hkeq.symm

/-- What a successful `POST /orders` guarantees, relative to the pre-state:
a non-empty request, exactly one new order row, exactly the requested
tickets, each individually valid and conflict-free, and no repeated key
inside the request. -/
theorem createOrder_ok {db db' : DB} {u : Nat} {specs : List TicketSpec}
    (h : createOrder db u specs = .ok db') :
    specs ≠ [] ∧
    db'.flights = db.flights ∧
    db'.orders = db.orders ++ [{ id := db.nextOrderId, userId := u }] ∧
    db'.nextOrderId = db.nextOrderId + 1 ∧
    db'.tickets = db.tickets ++ specs.map (mkTicket db.nextOrderId) ∧
    (∀ s ∈ specs, ValidSpec db.flights s ∧
      ∀ t ∈ db.tickets, tkey t ≠ skey s) ∧
    (specs.map skey).Nodup := by
  unfold createOrder at h
  rw [exceptBind_ok_iff] at h
  obtain ⟨u0, hv, hc⟩ := h
  cases u0
  have hne : specs ≠ [] := by
    intro hnil
    subst hnil
    unfold OrderSerializer.isValid at hv
    simp at hv
  unfold OrderSerializer.create at hc
  obtain ⟨hf, ho, hn, ht, hall, hnodup⟩ :=
    createTickets_ok db.nextOrderId specs _ db' hc
  exact ⟨hne, hf, ho, hn, ht, hall, hnodup⟩

/-- What a successful `DELETE /orders/{id}` guarantees: the deleted order
belonged to the requesting user and carried the requested id, and the
post-state is the pre-state minus that order and its tickets. -/
theorem orderDestroy_ok {db db' : DB} {u oid : Nat}
    (h : orderDestroy db u oid = .ok db') :
    ∃ o, o ∈ db.orders ∧ o.userId = u ∧ o.id = oid ∧
      db' = { db with
              orders := db.orders.filter (fun x => !(x.id == o.id)),
              tickets := db.tickets.filter (fun t => !(t.orderId == o.id)) } := by
  unfold orderDestroy at h
  cases hf : (OrderViewSet.getQueryset db u).find? (fun o => o.id == oid) with
  | none => rw [hf] at h; simp at h
  | some o =>
    rw [hf] at h
    have hmem := List.mem_of_find?_eq_some hf
    have hid : o.id = oid := by simpa using List.find?_some hf
    unfold OrderViewSet.getQueryset at hmem
    rw [List.mem_filter] at hmem
    have huser : o.userId = u := by simpa using hmem.2
    exact ⟨o, hmem.1, huser, hid, (Except.ok.inj h).symm⟩

/-! ### Preservation of the store invariant -/

theorem wf_createOrder {db db' : DB} {u : Nat} {specs : List TicketSpec}
    (hwf : WF db) (h : createOrder db u specs = .ok db') : WF db' := by
  obtain ⟨hne, hf, ho, hn, ht, hall, hnodup⟩ := createOrder_ok h
  obtain ⟨wf1, wf2, wf3, wf4, wf5, wf6, wf7⟩ := hwf
  refine ⟨?_, ?_, ?_, ?_, ?_, ?_, ?_⟩
  · rw [hf]; exact wf1
  · rw [ho, hn]
    intro o hom
    rcases List.mem_append.mp hom with hold | hnew
    · exact Nat.lt_succ_of_lt (wf2 o hold)
    · rw [List.mem_singleton.mp hnew]
      exact Nat.lt_succ_self _
  · rw [ho]
    rw [List.pairwise_append]
    refine ⟨wf3, List.pairwise_singleton _ _, ?_⟩
    intro a ha b hb
    rw [List.mem_singleton.mp hb]
    exact Nat.ne_of_lt (wf2 a ha)
  · rw [ht]
    rw [List.pairwise_append]
    refine ⟨wf4, ?_, ?_⟩
    · rw [List.pairwise_map]
      have hp : List.Pairwise (fun s1 s2 => skey s1 ≠ skey s2) specs :=
        List.pairwise_map.mp hnodup
      exact hp.imp (fun hne12 => hne12)
    · intro a ha b hb
      obtain ⟨s, hsmem, hsb⟩ := List.mem_map.mp hb
      rw [← hsb]
      exact (hall s hsmem).2 a ha
  · rw [ht, ho]
    intro t htm
    rcases List.mem_append.mp htm with hold | hnew
    · obtain ⟨o, hom, hoid⟩ := wf5 t hold
      exact ⟨o, List.mem_append_left _ hom, hoid⟩
    · obtain ⟨s, hsmem, hsb⟩ := List.mem_map.mp hnew
      refine ⟨{ id := db.nextOrderId, userId := u },
        List.mem_append_right _ (List.mem_singleton.mpr rfl), ?_⟩
      rw [← hsb]
      rfl
  · rw [ht, ho]
    intro o hom
    rcases List.mem_append.mp hom with hold | hnew
    · obtain ⟨t, htm, hoid⟩ := wf6 o hold
      exact ⟨t, List.mem_append_left _ htm, hoid⟩
    · obtain ⟨s, hsmem⟩ := List.exists_mem_of_ne_nil specs hne
      refine ⟨mkTicket db.nextOrderId s,
        List.mem_append_right _ (List.mem_map_of_mem _ hsmem), ?_⟩
      rw [List.mem_singleton.mp hnew]
      rfl
  · rw [ht, hf]
    intro t htm
    rcases List.mem_append.mp htm with hold | hnew
    · exact wf7 t hold
    · obtain ⟨s, hsmem, hsb⟩ := List.mem_map.mp hnew
      rw [← hsb]
      exact (hall s hsmem).1

theorem wf_orderDestroy {db db' : DB} {u oid : Nat}
    (hwf : WF db) (h : orderDestroy db u oid = .ok db') : WF db' := by
  obtain ⟨o, homem, huser, hid, hdb'⟩ := orderDestroy_ok h
  obtain ⟨wf1, wf2, wf3, wf4, wf5, wf6, wf7⟩ := hwf
  subst hdb'
  refine ⟨wf1, ?_, ?_, ?_, ?_, ?_, ?_⟩
  · intro x hx
    exact wf2 x (List.mem_of_mem_filter hx)
  · exact List.Pairwise.sublist (List.filter_sublist _) wf3
  · exact List.Pairwise.sublist (List.filter_sublist _) wf4
  · intro t htm
    rw [List.mem_filter] at htm
    have hto : t.orderId ≠ o.id := by simpa using htm.2
    obtain ⟨o2, ho2, ho2id⟩ := wf5 t htm.1
    refine ⟨o2, ?_, ho2id⟩
    rw [List.mem_filter]
    refine ⟨ho2, ?_⟩
    simp only [Bool.not_eq_eq_eq_not, Bool.not_true, beq_eq_false_iff_ne]
    rw [ho2id]
    exact hto
  · intro o2 ho2
    rw [List.mem_filter] at ho2
    have ho2id : o2.id ≠ o.id := by simpa using ho2.2
    obtain ⟨t, htm, htoid⟩ := wf6 o2 ho2.1
    refine ⟨t, ?_, htoid⟩
    rw [List.mem_filter]
    refine ⟨htm, ?_⟩
    simp only [Bool.not_eq_eq_eq_not, Bool.not_true, beq_eq_false_iff_ne]
    rw [htoid]
    exact ho2id
  · intro t htm
    exact wf7 t (List.mem_of_mem_filter htm)

/-- Every reachable state satisfies the store invariant. -/
theorem reachable_wf : ∀ db : DB, Reachable db → WF db := by
  intro db h
  induction h with
  | start flights n hpw =>
    refine ⟨hpw, ?_, ?_, ?_, ?_, ?_, ?_⟩ <;> simp
  | step db1 db2 _ hstep ih =>
    cases hstep with
    | create userId specs hc => exact wf_createOrder ih hc
    | destroy userId oid hd => exact wf_orderDestroy ih hd

/-- A successful flight lookup returns a member of the table carrying the
looked-up id. -/
theorem flightOf_some {flights : List Flight} {fid : Nat} {fl : Flight}
    (h : flightOf flights fid = some fl) : fl ∈ flights ∧ fl.id = fid := by
  unfold flightOf at h
  exact ⟨List.mem_of_find?_eq_some h, by simpa using List.find?_some h⟩

/-- State `exDb1` is reachable: one successful order creation from the start
state. -/
theorem exReach1 : Reachable exDb1 :=
  Reachable.step exDb0 exDb1
    (Reachable.start [exFlight1, exFlight2, exFlight3] 0 (by decide))
    (Step.create exDb0 exDb1 7 [exSpec1, exSpec2] (by decide))

/-! ### Claim C1 -/

/-- C1: `validate_ticket(row, seat, airplane)` succeeds iff
`0 < row < airplane.rows` and `0 < seat < airplane.seats_in_row` (exclusive
on both ends); in particular it fails for `row = 0`, `row = rows`,
`seat = 0` and `seat = seats_in_row`; and the direct-creation path
(`Ticket.clean`) and the order-nested path (`TicketSerializer.validate`)
apply exactly the same rule. -/
theorem c1_validate_ticket_bounds {ε : Type} (mk : String → ε)
    (row seat : Int) (a : Airplane) (flights : List Flight) (t : Ticket)
    (fl : Flight) :
    (Ticket.validate_ticket row seat a mk = .ok () ↔
      0 < row ∧ row < a.rows ∧ 0 < seat ∧ seat < a.seats_in_row) ∧
    ((row = 0 ∨ row = a.rows ∨ seat = 0 ∨ seat = a.seats_in_row) →
      ∃ e, Ticket.validate_ticket row seat a mk = .error e) ∧
    (flightOf flights t.flightId = some fl →
      (TicketSerializer.validate fl t.row t.seat = .ok () ↔
        Ticket.clean flights t = .ok ())) := by
  refine ⟨validate_ticket_ok_iff mk row seat a, ?_, ?_⟩
  · intro hb
    refine validate_ticket_error mk row seat a ?_
    intro hin
    obtain ⟨h1, h2, h3, h4⟩ := hin
    rcases hb with h | h | h | h <;> omega
  · intro hfl
    unfold TicketSerializer.validate
    rw [ticket_clean_ok_iff, validate_ticket_ok_iff]
    constructor
    · intro hin
      exact ⟨fl, hfl, hin⟩
    · rintro ⟨fl2, hfl2, hin⟩
      rw [hfl] at hfl2
      rw [Option.some.inj hfl2]
      exact hin

/-- Witness for C1 on the 3x3 `exAirplane`: `(2, 2)` is accepted, `(0, 2)`
is rejected, and the two validation paths agree on a concrete ticket. -/
theorem c1_validate_ticket_bounds_witness :
    Ticket.validate_ticket (2 : Int) 2 exAirplane (fun s => s) = .ok () ∧
    (∃ e, Ticket.validate_ticket (0 : Int) 2 exAirplane (fun s => s) =
      .error e) ∧
    (TicketSerializer.validate exFlight1 1 1 = .ok () ↔
      Ticket.clean [exFlight1]
        { row := 1, seat := 1, flightId := 1, orderId := 0 } = .ok ()) :=
  ⟨(c1_validate_ticket_bounds (fun s => s) 2 2 exAirplane [exFlight1]
      { row := 1, seat := 1, flightId := 1, orderId := 0 } exFlight1).1.mpr
      (by decide),
   (c1_validate_ticket_bounds (fun s => s) 0 2 exAirplane [exFlight1]
      { row := 1, seat := 1, flightId := 1, orderId := 0 } exFlight1).2.1
      (Or.inl rfl),
   (c1_validate_ticket_bounds (fun s => s) 1 1 exAirplane [exFlight1]
      { row := 1, seat := 1, flightId := 1, orderId := 0 } exFlight1).2.2
      (by decide)⟩

/-! ### Claim C4 -/

/-- C4: a flight create or update fails with a validation error iff
`departure_time >= arrival_time`; the model-level check runs inside every
`Flight.save` (creates and updates alike) and the serializer repeats it, so
an update breaking the invariant is rejected even when the stored record was
valid. -/
theorem c4_flight_time_validation (f : Flight) (dep arr : Int) :
    (Flight.save f = .ok f ↔ f.departure_time < f.arrival_time) ∧
    ((∃ e, Flight.save f = .error e) ↔ f.arrival_time ≤ f.departure_time) ∧
    (FlightSerializer.validate dep arr = .ok () ↔ dep < arr) ∧
    (f.departure_time < f.arrival_time → arr ≤ dep →
      flightUpdate f dep arr = .error (.djangoValidationError "time")) := by
  by_cases hge : f.departure_time ≥ f.arrival_time
  · have herr : Flight.save f = .error (.djangoValidationError "time") := by
      unfold Flight.save Flight.clean
      rw [if_pos hge]
      rfl
    refine ⟨?_, ?_, ?_, ?_⟩
    · rw [herr]
      exact iff_of_false (by simp) (by omega)
    · exact iff_of_true ⟨_, herr⟩ hge
    · unfold FlightSerializer.validate
      split_ifs with h
      · exact iff_of_false (by simp) (by omega)
      · exact iff_of_true rfl (by omega)
    · intro h1 _
      omega
  · have hok : Flight.save f = .ok f := by
      unfold Flight.save Flight.clean
      rw [if_neg hge]
      rfl
    refine ⟨?_, ?_, ?_, ?_⟩
    · rw [hok]
      exact iff_of_true rfl (by omega)
    · refine iff_of_false ?_ (by omega)
      rintro ⟨e, he⟩
      rw [hok] at he
      simp at he
    · unfold FlightSerializer.validate
      split_ifs with h
      · exact iff_of_false (by simp) (by omega)
      · exact iff_of_true rfl (by omega)
    · intro _ h2
      have hc : ({ f with departure_time := dep, arrival_time := arr } :
          Flight).departure_time ≥
          ({ f with departure_time := dep, arrival_time := arr } :
            Flight).arrival_time := h2
      unfold flightUpdate Flight.save Flight.clean
      rw [if_pos hc]
      rfl

/-- Witness for C4: the valid stored flight `exFlight1` (100 < 200) is
accepted by save, and its update to the inverted window (5, 3) is
rejected. -/
theorem c4_flight_time_validation_witness :
    Flight.save exFlight1 = .ok exFlight1 ∧
    flightUpdate exFlight1 5 3 = .error (.djangoValidationError "time") :=
  ⟨(c4_flight_time_validation exFlight1 5 3).1.mpr (by decide),
   (c4_flight_time_validation exFlight1 5 3).2.2.2 (by decide) (by decide)⟩

/-! ### Claim C8 (corrected) -/

/-- C8 counterexample: the payload `exPayload` has `rows = 0 ≤ 0` and
`seats_in_row = -5 ≤ 0`, yet airplane creation accepts it verbatim — the
claimed rejection of non-positive seating grids does not exist in the code
(`rows` and `seats_in_row` are plain `IntegerField`s with no validator). -/
theorem c8_counterexample :
    exPayload.rows ≤ 0 ∧ exPayload.seats_in_row ≤ 0 ∧
    airplaneCreate [1] 4 exPayload =
      .ok { id := 4, name := "PlaneC", rows := 0, seats_in_row := -5 } :=
  ⟨by decide, by decide, by decide⟩

/-- C8 amended: airplane creation performs no positivity validation: every
payload whose `airplane_type` id exists is persisted exactly as sent,
whatever the signs of `rows` and `seats_in_row`. -/
theorem c8_airplane_create_unvalidated (typeIds : List Nat) (newId : Nat)
    (p : AirplanePayload) (h : typeIds.contains p.airplane_type = true) :
    airplaneCreate typeIds newId p =
      .ok { id := newId, name := p.name, rows := p.rows,
            seats_in_row := p.seats_in_row } := by
  unfold airplaneCreate
  rw [if_pos h]

/-- Witness for the amended C8: the degenerate payload is accepted. -/
theorem c8_airplane_create_unvalidated_witness :
    airplaneCreate [1] 4 exPayload =
      .ok { id := 4, name := "PlaneC", rows := 0, seats_in_row := -5 } :=
  c8_airplane_create_unvalidated [1] 4 exPayload (by decide)

/-! ### Claim C2 -/

/-- C2: order creation is all-or-nothing: an empty ticket list is rejected
with a (DRF, 400-class) validation error and — the call returning an error —
no state change; a successful call persists exactly one new order together
with exactly the requested tickets; and consequently no reachable state
contains an order without a ticket or a ticket without its order. A failed
call never produces a state at all in this model, which is precisely the
rollback guarantee of the `transaction.atomic` block. -/
theorem c2_order_creation_atomic :
    (∀ (db : DB) (u : Nat),
      createOrder db u [] = .error (.validationError "tickets")) ∧
    (∀ (db db' : DB) (u : Nat) (specs : List TicketSpec),
      createOrder db u specs = .ok db' →
      db'.orders = db.orders ++ [{ id := db.nextOrderId, userId := u }] ∧
      db'.tickets = db.tickets ++ specs.map (mkTicket db.nextOrderId) ∧
      db'.flights = db.flights) ∧
    (∀ db : DB, Reachable db →
      (∀ o ∈ db.orders, ∃ t ∈ db.tickets, t.orderId = o.id) ∧
      (∀ t ∈ db.tickets, ∃ o ∈ db.orders, o.id = t.orderId)) := by
  refine ⟨fun db u => rfl, ?_, ?_⟩
  · intro db db' u specs h
    obtain ⟨_, hf, ho, _, ht, _, _⟩ := createOrder_ok h
    exact ⟨ho, ht, hf⟩
  · intro db hr
    obtain ⟨_, _, _, _, wf5, wf6, _⟩ := reachable_wf db hr
    exact ⟨wf6, wf5⟩

/-- Witness for C2: creating an order with no tickets on `exDb0` fails; the
successful two-ticket creation reaching `exDb1` added exactly the order and
its two tickets; and in the reachable `exDb1` the persisted order `0` owns a
ticket. -/
theorem c2_order_creation_atomic_witness :
    createOrder exDb0 7 [] = .error (.validationError "tickets") ∧
    (exDb1.orders = exDb0.orders ++ [{ id := 0, userId := 7 }] ∧
      exDb1.tickets = exDb0.tickets ++
        [exSpec1, exSpec2].map (mkTicket 0) ∧
      exDb1.flights = exDb0.flights) ∧
    (∃ t ∈ exDb1.tickets, t.orderId = 0) :=
  ⟨c2_order_creation_atomic.1 exDb0 7,
   c2_order_creation_atomic.2.1 exDb0 exDb1 7 [exSpec1, exSpec2] (by decide),
   (c2_order_creation_atomic.2.2 exDb1 exReach1).1
     { id := 0, userId := 7 } (by decide)⟩

/-! ### Claim C3 -/

/-- C3: in every reachable state no two tickets share the same
`(row, seat, flight)` key, and an order-creation request containing two
entries with an identical key can never succeed (so, the call returning an
error, it leaves no state change). -/
theorem c3_seat_uniqueness :
    (∀ db : DB, Reachable db →
      List.Pairwise (fun t1 t2 => tkey t1 ≠ tkey t2) db.tickets) ∧
    (∀ (db : DB) (u : Nat) (specs : List TicketSpec),
      ¬ (specs.map skey).Nodup →
      ∀ db' : DB, createOrder db u specs ≠ .ok db') := by
  refine ⟨?_, ?_⟩
  · intro db hr
    exact (reachable_wf db hr).2.2.2.1
  · intro db u specs hdup db' hok
    exact hdup (createOrder_ok hok).2.2.2.2.2.2

/-- Witness for C3: the reachable `exDb1` has key-distinct tickets, and the
request repeating `exSpec1` twice cannot produce `exDb1` (nor any state). -/
theorem c3_seat_uniqueness_witness :
    List.Pairwise (fun t1 t2 => tkey t1 ≠ tkey t2) exDb1.tickets ∧
    createOrder exDb0 7 [exSpec1, exSpec1] ≠ .ok exDb1 :=
  ⟨c3_seat_uniqueness.1 exDb1 exReach1,
   c3_seat_uniqueness.2 exDb0 7 [exSpec1, exSpec1] (by decide) exDb1⟩

/-! ### Claim C10 -/

/-- C10: on an airplane with `rows ≤ 1` or `seats_in_row ≤ 1` the validator
rejects every `(row, seat)` pair; hence no reachable state has a ticket on a
flight of such an airplane, and any order request naming such a flight can
never succeed. -/
theorem c10_degenerate_airplane {ε : Type} (mk : String → ε) :
    (∀ (a : Airplane) (row seat : Int),
      a.rows ≤ 1 ∨ a.seats_in_row ≤ 1 →
      ∃ e, Ticket.validate_ticket row seat a mk = .error e) ∧
    (∀ db : DB, Reachable db → ∀ fl ∈ db.flights,
      fl.airplane.rows ≤ 1 ∨ fl.airplane.seats_in_row ≤ 1 →
      ∀ t ∈ db.tickets, t.flightId ≠ fl.id) ∧
    (∀ (db : DB) (u : Nat) (specs : List TicketSpec) (s : TicketSpec)
      (fl : Flight) (db' : DB), s ∈ specs →
      flightOf db.flights s.flightId = some fl →
      fl.airplane.rows ≤ 1 ∨ fl.airplane.seats_in_row ≤ 1 →
      createOrder db u specs ≠ .ok db') := by
  refine ⟨?_, ?_, ?_⟩
  · intro a row seat hdeg
    refine validate_ticket_error mk row seat a ?_
    rintro ⟨h1, h2, h3, h4⟩
    rcases hdeg with h | h <;> omega
  · intro db hr fl hfl hdeg t ht hflid
    obtain ⟨wf1, _, _, _, _, _, wf7⟩ := reachable_wf db hr
    obtain ⟨fl2, hfind, hin⟩ := wf7 t ht
    obtain ⟨hfl2mem, hfl2id⟩ := flightOf_some hfind
    have heq : fl2 = fl := by
      by_contra hne
      exact List.Pairwise.forall (fun _ _ hx => Ne.symm hx) wf1
        hfl2mem hfl hne (hfl2id.trans hflid)
    rw [heq] at hin
    obtain ⟨h1, h2, h3, h4⟩ := hin
    rcases hdeg with h | h <;> omega
  · intro db u specs s fl db' hs hfind hdeg hok
    obtain ⟨_, _, _, _, _, hall, _⟩ := createOrder_ok hok
    obtain ⟨fl2, hfind2, hin⟩ := (hall s hs).1
    rw [hfind] at hfind2
    rw [← Option.some.inj hfind2] at hin
    obtain ⟨h1, h2, h3, h4⟩ := hin
    rcases hdeg with h | h <;> omega

/-- Witness for C10 on the single-row `exAirplaneSmall` / `exFlight3`: the
validator rejects seat `(1, 1)`, the reachable `exDb1` has no ticket on
flight 3, and an order naming flight 3 cannot succeed. -/
theorem c10_degenerate_airplane_witness :
    (∃ e, Ticket.validate_ticket (1 : Int) 1 exAirplaneSmall (fun s => s) =
      .error e) ∧
    ({ row := 1, seat := 1, flightId := 1, orderId := 0 } : Ticket).flightId ≠
      exFlight3.id ∧
    createOrder exDb0 7 [exSpecBad] ≠ .ok exDb1 :=
  ⟨(c10_degenerate_airplane (fun s => s)).1 exAirplaneSmall 1 1 (by decide),
   (c10_degenerate_airplane (fun s => s)).2.1 exDb1 exReach1 exFlight3
     (by decide) (by decide)
     { row := 1, seat := 1, flightId := 1, orderId := 0 } (by decide),
   (c10_degenerate_airplane (fun s => s)).2.2 exDb0 7 [exSpecBad] exSpecBad
     exFlight3 exDb1 (by decide) (by decide) (by decide)⟩

/-! ### Claim C7 -/

/-- Counting helper: the rows satisfying `p` split into those also
satisfying `q` and those satisfying `!q`. -/
theorem length_filter_split {α : Type} (p q : α → Bool) (l : List α) :
    (l.filter (fun a => p a && q a)).length +
      (l.filter (fun a => p a && !q a)).length = (l.filter p).length := by
  induction l with
  | nil => rfl
  | cons a t ih =>
    cases hp : p a <;> cases hq : q a <;>
      simp [List.filter_cons, hp, hq] <;> omega

/-- C7: `tickets_available` equals `rows * seats_in_row` minus the number of
tickets on the flight; a successful order creation with `N` tickets naming
the flight decreases it by exactly `N`; and a successful order deletion
increases it by exactly the number of the deleted order's tickets on that
flight. -/
theorem c7_tickets_available :
    (∀ (db : DB) (f : Flight),
      tickets_available db f =
        f.airplane.rows * f.airplane.seats_in_row -
          (ticketsOn db f.id : Int)) ∧
    (∀ (db db' : DB) (u : Nat) (specs : List TicketSpec) (f : Flight),
      createOrder db u specs = .ok db' →
      tickets_available db' f = tickets_available db f -
        ((specs.filter (fun s => s.flightId == f.id)).length : Int)) ∧
    (∀ (db db' : DB) (u oid : Nat) (f : Flight),
      orderDestroy db u oid = .ok db' →
      tickets_available db' f = tickets_available db f +
        ((db.tickets.filter
          (fun t => t.orderId == oid && t.flightId == f.id)).length : Int)) := by
  refine ⟨fun db f => rfl, ?_, ?_⟩
  · intro db db' u specs f h
    obtain ⟨_, _, _, _, ht, _, _⟩ := createOrder_ok h
    unfold tickets_available ticketsOn
    rw [ht, List.filter_append, List.length_append, List.filter_map]
    have hpred : List.filter
        ((fun t => t.flightId == f.id) ∘ mkTicket db.nextOrderId) specs =
        List.filter (fun s => s.flightId == f.id) specs := rfl
    rw [hpred, List.length_map]
    push_cast
    ring
  · intro db db' u oid f h
    obtain ⟨o, homem, huser, hid, hdb'⟩ := orderDestroy_ok h
    subst hdb'
    subst hid
    unfold tickets_available ticketsOn
    simp only [List.filter_filter]
    have hswap : db.tickets.filter
        (fun t => t.orderId == o.id && t.flightId == f.id) =
        db.tickets.filter
          (fun t => t.flightId == f.id && t.orderId == o.id) := by
      apply List.filter_congr
      intro t _
      exact Bool.and_comm _ _
    rw [hswap]
    have hsplit : (db.tickets.filter
        (fun t => t.flightId == f.id && t.orderId == o.id)).length +
        (db.tickets.filter
          (fun t => t.flightId == f.id && !(t.orderId == o.id))).length =
        (db.tickets.filter (fun t => t.flightId == f.id)).length :=
      length_filter_split _ _ _
    omega

/-- Witness for C7: on `exDb0 → exDb1` (two new tickets on flight 1) the
availability of `exFlight1` drops from 9 to 7; deleting order 0 from
`exDb1` restores it. -/
theorem c7_tickets_available_witness :
    tickets_available exDb1 exFlight1 = tickets_available exDb0 exFlight1 -
      (([exSpec1, exSpec2].filter
        (fun s => s.flightId == exFlight1.id)).length : Int) ∧
    tickets_available exDb0 exFlight1 = tickets_available exDb1 exFlight1 +
      ((exDb1.tickets.filter
        (fun t => t.orderId == 0 && t.flightId == exFlight1.id)).length :
          Int) :=
  ⟨c7_tickets_available.2.1 exDb0 exDb1 7 [exSpec1, exSpec2] exFlight1
     (by decide),
   c7_tickets_available.2.2 exDb1
     { flights := [exFlight1, exFlight2, exFlight3], orders := [],
       tickets := [], nextOrderId := 1 } 7 0 exFlight1 (by decide)⟩

/-! ### Claim C9 -/

/-- C9: the order endpoints operate on the user-filtered queryset only:
listing returns exactly the requesting user's orders, and retrieving or
deleting another user's order fails with `Http404` (the delete returning an
error, no state changes). -/
theorem c9_order_user_scoping :
    (∀ (db : DB) (u : Nat) (o : Order),
      o ∈ OrderViewSet.getQueryset db u ↔ o ∈ db.orders ∧ o.userId = u) ∧
    (∀ (db : DB) (u : Nat) (o : Order),
      List.Pairwise (fun o1 o2 => o1.id ≠ o2.id) db.orders →
      o ∈ db.orders → o.userId ≠ u →
      orderRetrieve db u o.id = .error .http404 ∧
      orderDestroy db u o.id = .error .http404) := by
  refine ⟨?_, ?_⟩
  · intro db u o
    unfold OrderViewSet.getQueryset
    rw [List.mem_filter]
    simp
  · intro db u o hpw hmem hneq
    have hnone : (OrderViewSet.getQueryset db u).find?
        (fun x => x.id == o.id) = none := by
      rw [List.find?_eq_none]
      intro x hx
      unfold OrderViewSet.getQueryset at hx
      rw [List.mem_filter] at hx
      have hxu : x.userId = u := by simpa using hx.2
      intro hbeq
      have hxid : x.id = o.id := by simpa using hbeq
      have hxo : x ≠ o := by
        intro he
        subst he
        exact hneq hxu
      exact List.Pairwise.forall (fun _ _ hx2 => Ne.symm hx2) hpw
        hx.1 hmem hxo hxid
    constructor
    · unfold orderRetrieve
      rw [hnone]
    · unfold orderDestroy
      rw [hnone]

/-! ### Claim C5 (corrected) -/

/-- Every error the chunk-wise integer parse can produce is a builtin
`ValueError`. -/
theorem mapM_chunks_error (pf : List Char → Except AppError Int)
    (hpf : ∀ a e, pf a = .error e → ∃ s, e = .valueError s) :
    ∀ (l : List (List Char)) (e : AppError),
      l.mapM pf = .error e → ∃ s, e = .valueError s := by
  intro l
  induction l with
  | nil =>
    intro e h
    rw [List.mapM_nil] at h
    simp [pure, Except.pure] at h
  | cons a t ih =>
    intro e h
    rw [List.mapM_cons] at h
    cases hp : pf a with
    | error e1 =>
      rw [hp] at h
      simp only [Bind.bind, Except.bind, Except.error.injEq] at h
      subst h
      exact hpf a _ hp
    | ok b =>
      rw [hp] at h
      simp only [Bind.bind, Except.bind] at h
      cases hm : t.mapM pf with
      | error e2 =>
        rw [hm] at h
        simp only [Except.error.injEq] at h
        subst h
        exact ih _ hm
      | ok xs =>
        rw [hm] at h
        simp [pure, Except.pure] at h

/-- Helper `_params_to_ints` can only fail with a builtin `ValueError`. -/
theorem paramsToInts_error_shape (c : String) (e : AppError)
    (h : FlightViewSet.paramsToInts c = .error e) :
    ∃ s, e = .valueError s := by
  unfold FlightViewSet.paramsToInts at h
  refine mapM_chunks_error _ ?_ _ e h
  intro a e2 hp
  cases hq : pyInt a with
  | none =>
    simp only [hq] at hp
    exact ⟨String.mk a, (Except.error.inj hp).symm⟩
  | some n =>
    simp [hq] at hp

/-- C5 counterexample: the malformed crew value `"abc"` makes the flight
query fail with an uncaught builtin `ValueError`, which the framework
surfaces as a 500-class fatal error — not the 400-class client error the
claim states. -/
theorem c5_counterexample :
    FlightViewSet.getQueryset [exFlight1] (crewOnlyParams "abc") =
      .error (.valueError "abc") ∧
    (AppError.valueError "abc").statusClass = 500 ∧
    ¬ (AppError.valueError "abc").statusClass = 400 :=
  ⟨by decide, rfl, by decide⟩

/-- C5 amended: every flight-list query carrying a non-empty malformed
`crew` value, or a non-empty unparsable `date_departure` or `date_arrival`
value — under any combination of the remaining filters — fails as a whole
(never silently ignored), but with an uncaught builtin `ValueError`, a
500-class fatal error rather than a 400-class client error. (An empty
parameter string is falsy in Python and is skipped without any filtering or
error.) -/
theorem c5_filter_error_fatal :
    ∀ (flights : List Flight) (p : QueryParams),
      ((∃ c, p.crew = some c ∧ c ≠ "" ∧
          ∃ e0, FlightViewSet.paramsToInts c = .error e0) ∨
        (∃ d, p.date_departure = some d ∧ d ≠ "" ∧
          pyStrptimeDate d = none) ∨
        (∃ d, p.date_arrival = some d ∧ d ≠ "" ∧
          pyStrptimeDate d = none)) →
      ∃ s, FlightViewSet.getQueryset flights p = .error (.valueError s) ∧
        (AppError.valueError s).statusClass = 500 ∧
        (AppError.valueError s).statusClass ≠ 400 := by
  intro flights p hbad
  obtain ⟨sa, da, sc, dc, ap, cr, ddep, dar⟩ := p
  rcases hbad with ⟨c, hcr, hcne, e0, hce⟩ | ⟨d, hdd, hdne, hdp⟩ |
    ⟨d, hda, hdne, hdp⟩
  · -- malformed crew value: the query dies inside `_params_to_ints`
    replace hcr : cr = some c := hcr
    subst hcr
    obtain ⟨s, hs⟩ := paramsToInts_error_shape c e0 hce
    subst hs
    refine ⟨s, ?_, rfl, by simp [AppError.statusClass]⟩
    unfold FlightViewSet.getQueryset FlightViewSet.rawQueryset
    simp only [if_neg hcne, hce]
    rfl
  · -- unparsable date_departure, whatever the crew parameter holds
    replace hdd : ddep = some d := hdd
    subst hdd
    cases cr with
    | none =>
      refine ⟨d, ?_, rfl, by simp [AppError.statusClass]⟩
      unfold FlightViewSet.getQueryset FlightViewSet.rawQueryset
      simp only [if_neg hdne, hdp]
      rfl
    | some c2 =>
      by_cases hc2 : c2 = ""
      · subst hc2
        refine ⟨d, ?_, rfl, by simp [AppError.statusClass]⟩
        unfold FlightViewSet.getQueryset FlightViewSet.rawQueryset
        simp only [if_neg hdne, hdp]
        rfl
      · cases hp : FlightViewSet.paramsToInts c2 with
        | error e1 =>
          obtain ⟨s, hs⟩ := paramsToInts_error_shape c2 e1 hp
          subst hs
          refine ⟨s, ?_, rfl, by simp [AppError.statusClass]⟩
          unfold FlightViewSet.getQueryset FlightViewSet.rawQueryset
          simp only [if_neg hc2, hp]
          rfl
        | ok ids =>
          refine ⟨d, ?_, rfl, by simp [AppError.statusClass]⟩
          unfold FlightViewSet.getQueryset FlightViewSet.rawQueryset
          simp only [if_neg hc2, hp, if_neg hdne, hdp]
          rfl
  · -- unparsable date_arrival, whatever crew and date_departure hold
    replace hda : dar = some d := hda
    subst hda
    cases cr with
    | none =>
      cases ddep with
      | none =>
        refine ⟨d, ?_, rfl, by simp [AppError.statusClass]⟩
        unfold FlightViewSet.getQueryset FlightViewSet.rawQueryset
        simp only [if_neg hdne, hdp]
        rfl
      | some d2 =>
        by_cases hd2 : d2 = ""
        · subst hd2
          refine ⟨d, ?_, rfl, by simp [AppError.statusClass]⟩
          unfold FlightViewSet.getQueryset FlightViewSet.rawQueryset
          simp only [if_neg hdne, hdp]
          rfl
        · cases hq : pyStrptimeDate d2 with
          | none =>
            refine ⟨d2, ?_, rfl, by simp [AppError.statusClass]⟩
            unfold FlightViewSet.getQueryset FlightViewSet.rawQueryset
            simp only [if_neg hd2, hq]
            rfl
          | some b =>
            refine ⟨d, ?_, rfl, by simp [AppError.statusClass]⟩
            unfold FlightViewSet.getQueryset FlightViewSet.rawQueryset
            simp only [if_neg hd2, hq, if_neg hdne, hdp]
            rfl
    | some c2 =>
      by_cases hc2 : c2 = ""
      · subst hc2
        cases ddep with
        | none =>
          refine ⟨d, ?_, rfl, by simp [AppError.statusClass]⟩
          unfold FlightViewSet.getQueryset FlightViewSet.rawQueryset
          simp only [if_neg hdne, hdp]
          rfl
        | some d2 =>
          by_cases hd2 : d2 = ""
          · subst hd2
            refine ⟨d, ?_, rfl, by simp [AppError.statusClass]⟩
            unfold FlightViewSet.getQueryset FlightViewSet.rawQueryset
            simp only [if_neg hdne, hdp]
            rfl
          · cases hq : pyStrptimeDate d2 with
            | none =>
              refine ⟨d2, ?_, rfl, by simp [AppError.statusClass]⟩
              unfold FlightViewSet.getQueryset FlightViewSet.rawQueryset
              simp only [if_neg hd2, hq]
              rfl
            | some b =>
              refine ⟨d, ?_, rfl, by simp [AppError.statusClass]⟩
              unfold FlightViewSet.getQueryset FlightViewSet.rawQueryset
              simp only [if_neg hd2, hq, if_neg hdne, hdp]
              rfl
      · cases hp : FlightViewSet.paramsToInts c2 with
        | error e1 =>
          obtain ⟨s, hs⟩ := paramsToInts_error_shape c2 e1 hp
          subst hs
          refine ⟨s, ?_, rfl, by simp [AppError.statusClass]⟩
          unfold FlightViewSet.getQueryset FlightViewSet.rawQueryset
          simp only [if_neg hc2, hp]
          rfl
        | ok ids =>
          cases ddep with
          | none =>
            refine ⟨d, ?_, rfl, by simp [AppError.statusClass]⟩
            unfold FlightViewSet.getQueryset FlightViewSet.rawQueryset
            simp only [if_neg hc2, hp, if_neg hdne, hdp]
            rfl
          | some d2 =>
            by_cases hd2 : d2 = ""
            · subst hd2
              refine ⟨d, ?_, rfl, by simp [AppError.statusClass]⟩
              unfold FlightViewSet.getQueryset FlightViewSet.rawQueryset
              simp only [if_neg hc2, hp, if_neg hdne, hdp]
              rfl
            · cases hq : pyStrptimeDate d2 with
              | none =>
                refine ⟨d2, ?_, rfl, by simp [AppError.statusClass]⟩
                unfold FlightViewSet.getQueryset FlightViewSet.rawQueryset
                simp only [if_neg hc2, hp, if_neg hd2, hq]
                rfl
              | some b =>
                refine ⟨d, ?_, rfl, by simp [AppError.statusClass]⟩
                unfold FlightViewSet.getQueryset FlightViewSet.rawQueryset
                simp only [if_neg hc2, hp, if_neg hd2, hq, if_neg hdne, hdp]
                rfl

/-- Witness for the amended C5: the malformed crew list `"1,x"` fails; the
valid crew filter `"1"` combined with the unparsable `date_departure`
`"2024-13-01"` (bad month) fails; and the valid crew `"1"` plus the valid
`date_departure` `"2024-08-25"` combined with the unparsable `date_arrival`
`"2024-2-30"` (bad day) fails — each with a 500-class `ValueError`. -/
theorem c5_filter_error_fatal_witness :
    (∃ s, FlightViewSet.getQueryset [exFlight1] (crewOnlyParams "1,x") =
        .error (.valueError s) ∧
      (AppError.valueError s).statusClass = 500 ∧
      (AppError.valueError s).statusClass ≠ 400) ∧
    (∃ s, FlightViewSet.getQueryset [exFlight1]
        { crew := some "1", date_departure := some "2024-13-01" } =
        .error (.valueError s) ∧
      (AppError.valueError s).statusClass = 500 ∧
      (AppError.valueError s).statusClass ≠ 400) ∧
    (∃ s, FlightViewSet.getQueryset [exFlight1]
        { crew := some "1", date_departure := some "2024-08-25",
          date_arrival := some "2024-2-30" } =
        .error (.valueError s) ∧
      (AppError.valueError s).statusClass = 500 ∧
      (AppError.valueError s).statusClass ≠ 400) :=
  ⟨c5_filter_error_fatal [exFlight1] (crewOnlyParams "1,x")
     (Or.inl ⟨"1,x", rfl, by decide, AppError.valueError "x", by decide⟩),
   c5_filter_error_fatal [exFlight1]
     { crew := some "1", date_departure := some "2024-13-01" }
     (Or.inr (Or.inl ⟨"2024-13-01", rfl, by decide, by decide⟩)),
   c5_filter_error_fatal [exFlight1]
     { crew := some "1", date_departure := some "2024-08-25",
       date_arrival := some "2024-2-30" }
     (Or.inr (Or.inr ⟨"2024-2-30", rfl, by decide, by decide⟩))⟩

/-! ### Claim C6 -/

/-- C6: with a crew filter `id1,...,idk`, the flight query returns exactly
the flights whose crew set intersects the given ids; each flight appears at
most once even when several of its crew ids match (the SQL join duplicates
are removed by `distinct()`); and — for any combination of filters — the
result is sorted ascending by `departure_time`. -/
theorem c6_crew_filter :
    (∀ (flights : List Flight) (c : String) (ids : List Int),
      FlightViewSet.paramsToInts c = .ok ids →
      ∃ res, FlightViewSet.getQueryset flights (crewOnlyParams c) = .ok res ∧
        (∀ f : Flight, f ∈ res ↔ f ∈ flights ∧ ∃ cid ∈ f.crew, cid ∈ ids) ∧
        res.Nodup ∧ res.Sorted flightLe) ∧
    (∀ (flights : List Flight) (p : QueryParams) (res : List Flight),
      FlightViewSet.getQueryset flights p = .ok res →
      res.Sorted flightLe ∧ res.Nodup) := by
  have hres : ∀ (flights : List Flight) (p : QueryParams)
      (res : List Flight), FlightViewSet.getQueryset flights p = .ok res →
      res.Sorted flightLe ∧ res.Nodup := by
    intro flights p res h
    unfold FlightViewSet.getQueryset at h
    cases hraw : FlightViewSet.rawQueryset flights p with
    | error e =>
      rw [hraw] at h
      simp [Except.map] at h
    | ok q =>
      rw [hraw] at h
      simp only [Except.map, Except.ok.injEq] at h
      subst h
      refine ⟨List.sorted_insertionSort flightLe _, ?_⟩
      exact ((List.perm_insertionSort flightLe _).symm).nodup
        (List.nodup_dedup q)
  refine ⟨?_, hres⟩
  intro flights c ids hparse
  have hc : c ≠ "" := by
    intro hceq
    subst hceq
    have hbad : FlightViewSet.paramsToInts "" = .error (.valueError "") := by
      decide
    rw [hbad] at hparse
    exact Except.noConfusion hparse
  have hraw : FlightViewSet.rawQueryset flights (crewOnlyParams c) =
      .ok (flights.flatMap (fun f =>
        (f.crew.filter (fun cid => ids.contains cid)).map (fun _ => f))) := by
    unfold FlightViewSet.rawQueryset crewOnlyParams
    simp only [if_neg hc, hparse]
    rfl
  have hq : FlightViewSet.getQueryset flights (crewOnlyParams c) =
      .ok (((flights.flatMap (fun f =>
        (f.crew.filter (fun cid => ids.contains cid)).map
          (fun _ => f))).dedup).insertionSort flightLe) := by
    unfold FlightViewSet.getQueryset
    rw [hraw]
    rfl
  refine ⟨_, hq, ?_, (hres flights (crewOnlyParams c) _ hq).2,
    (hres flights (crewOnlyParams c) _ hq).1⟩
  intro f
  rw [(List.perm_insertionSort flightLe _).mem_iff, List.mem_dedup,
    List.mem_flatMap]
  simp only [List.mem_map, List.mem_filter]
  constructor
  · rintro ⟨a, hamem, x, ⟨hxcrew, hxids⟩, haf⟩
    subst haf
    exact ⟨hamem, x, hxcrew, by simpa using hxids⟩
  · rintro ⟨hfmem, cid, hcidcrew, hcidids⟩
    exact ⟨f, hfmem, cid, ⟨hcidcrew, by simpa using hcidids⟩, rfl⟩

/-- Witness for C6: with crew filter `"1,3"` on the three example flights,
the result is exactly the flights whose crew intersects `{1, 3}` — here
flight 1 only — and the general clause holds on a concrete mixed query. -/
theorem c6_crew_filter_witness :
    (∃ res, FlightViewSet.getQueryset [exFlight1, exFlight2, exFlight3]
        (crewOnlyParams "1,3") = .ok res ∧
      (∀ f : Flight, f ∈ res ↔
        f ∈ [exFlight1, exFlight2, exFlight3] ∧
          ∃ cid ∈ f.crew, cid ∈ [(1 : Int), 3]) ∧
      res.Nodup ∧ res.Sorted flightLe) ∧
    (List.Sorted flightLe [exFlight2, exFlight1, exFlight3] ∧
      List.Nodup [exFlight2, exFlight1, exFlight3]) :=
  ⟨c6_crew_filter.1 [exFlight1, exFlight2, exFlight3] "1,3" [1, 3]
     (by decide),
   c6_crew_filter.2 [exFlight1, exFlight2, exFlight3]
     { source_city := some "City1" } [exFlight2, exFlight1, exFlight3]
     (by decide)⟩

/-- Witness for C9: in `exDb1` (orders owned by user 7) the listing for
user 7 contains order 0, and user 8 can neither retrieve nor delete it. -/
theorem c9_order_user_scoping_witness :
    ({ id := 0, userId := 7 } ∈ OrderViewSet.getQueryset exDb1 7 ↔
      ({ id := 0, userId := 7 } : Order) ∈ exDb1.orders ∧ (7 : Nat) = 7) ∧
    orderRetrieve exDb1 8 0 = .error .http404 ∧
    orderDestroy exDb1 8 0 = .error .http404 :=
  ⟨c9_order_user_scoping.1 exDb1 7 { id := 0, userId := 7 },
   (c9_order_user_scoping.2 exDb1 8 { id := 0, userId := 7 }
     (by decide) (by decide) (by decide)).1,
   (c9_order_user_scoping.2 exDb1 8 { id := 0, userId := 7 }
     (by decide) (by decide) (by decide)).2⟩

end AirportApi
